import Mathlib

/-
Verification of the delta-firmware-update sample (src/app/src/main.c).

The C file implements four memory-context primitives (delta_mem_read,
delta_mem_write, delta_mem_erase, delta_mem_seek), an orchestrator
(delta_apply_init, delta_apply_algo) and main.  External collaborators
(the Zephyr flash_area API, flash_img buffered writer, the delta backend,
the bootloader) are modelled as oracles supplied in an environment record;
every call into them is recorded in an explicit trace so that properties
about open/close pairing and call ordering can be stated.
-/

namespace Dfota

/-- Flash slot identifiers. SLOT_0 holds the running (source) firmware;
the read primitive treats SLOT_0 as SOURCE and every other slot as PATCH. -/
inductive Slot where
  | SLOT_0
  | SLOT_1
  | SLOT_PATCH
  deriving DecidableEq, Repr

/-- Modelled from the spec: the DESTINATION region, the slot that receives the
newly reconstructed firmware image. The slot-to-region mapping is not under
src/; per the source comment the image writer targets slot 1 and SLOT_0 is
the source firmware, so DESTINATION is Slot.SLOT_1. -/
def DESTINATION_SLOT : Slot := Slot.SLOT_1

/-- The errno value ENODEV (no such device). -/
def ENODEV : Int := 19

/-- The errno value EINVAL (invalid argument). -/
def EINVAL : Int := 22

/-- One observable action against the flash hardware boundary. -/
inductive FlashOp where
  | opened (slot : Slot)
  | closed (slot : Slot)
  | didRead (slot : Slot) (offset size : Nat)
  | didErase (slot : Slot) (offset size : Nat)
  | imgWrite (size : Nat) (flush : Bool)
  deriving DecidableEq, Repr

/-- The offset pair of the dual-stream cursor (field `offset` of
delta_memory_struct_t in the C source). -/
structure delta_offset_t where
  source : Nat
  patch : Nat
  deriving DecidableEq, Repr

/-- The flash part of the delta memory structure: the currently selected
slot, the region handle written by flash_area_open, and the buffered image
writer state (opaque, modelled as a Nat). -/
structure delta_flash_t where
  slot : Slot
  flash_area : Option Slot
  img_ctx : Nat
  deriving DecidableEq, Repr

/-- The delta memory structure passed to every callback. -/
structure delta_memory_struct_t where
  flash : delta_flash_t
  offset : delta_offset_t
  deriving DecidableEq, Repr

/-- Oracle for the flash hardware boundary: result codes of
flash_area_open / flash_area_read / flash_area_erase and the result and
state transition of flash_img_buffered_write. -/
structure FlashEnv where
  open_res : Slot → Int
  read_res : Slot → Nat → Nat → Int
  erase_res : Slot → Nat → Nat → Int
  img_write_res : Nat → Nat → Bool → Int
  img_write_next : Nat → Nat → Bool → Nat

/-- Zephyr flash_area_open, modelled at the external interface boundary:
on success it yields a handle for the slot and the trace records the open;
on failure no handle is produced and nothing was opened. -/
def flash_area_open (env : FlashEnv) (slot : Slot) : Int × Option Slot × List FlashOp :=
  let ret := env.open_res slot
  if ret = 0 then (0, some slot, [FlashOp.opened slot]) else (ret, none, [])

/-- Zephyr flash_area_read, modelled at the external interface boundary. -/
def flash_area_read (env : FlashEnv) (fa : Option Slot) (offset size : Nat) :
    Int × List FlashOp :=
  match fa with
  | some s => (env.read_res s offset size, [FlashOp.didRead s offset size])
  | none => (-EINVAL, [])

/-- Zephyr flash_area_erase, modelled at the external interface boundary. -/
def flash_area_erase (env : FlashEnv) (fa : Option Slot) (offset size : Nat) :
    Int × List FlashOp :=
  match fa with
  | some s => (env.erase_res s offset size, [FlashOp.didErase s offset size])
  | none => (-EINVAL, [])

/-- Zephyr flash_area_close, modelled at the external interface boundary. -/
def flash_area_close (fa : Option Slot) : List FlashOp :=
  match fa with
  | some s => [FlashOp.closed s]
  | none => []

/-- Zephyr flash_img_buffered_write, modelled at the external interface
boundary: returns the oracle result, the successor writer state, and a
trace entry for the buffered write. -/
def flash_img_buffered_write (env : FlashEnv) (ctx size : Nat) (flush : Bool) :
    Int × Nat × List FlashOp :=
  (env.img_write_res ctx size flush, env.img_write_next ctx size flush,
    [FlashOp.imgWrite size flush])

/-- Shallow embedding of delta_mem_read (src/app/src/main.c, lines 29-53):
choose the cursor offset from the selected slot, open the flash area
(returning -ENODEV on failure), read (returning -EINVAL on failure, and on
that path the C code returns without calling flash_area_close), close, and
return the read result. -/
def delta_mem_read (env : FlashEnv) (arg_p : delta_memory_struct_t) (size : Nat) :
    Int × delta_memory_struct_t × List FlashOp :=
  let offset : Nat :=
    if arg_p.flash.slot = Slot.SLOT_0 then arg_p.offset.source else arg_p.offset.patch
  let r1 := flash_area_open env arg_p.flash.slot
  if r1.1 ≠ 0 then
    (-ENODEV, arg_p, r1.2.2)
  else
    let arg1 : delta_memory_struct_t :=
      { arg_p with flash := { arg_p.flash with flash_area := r1.2.1 } }
    let r2 := flash_area_read env arg1.flash.flash_area offset size
    if r2.1 ≠ 0 then
      (-EINVAL, arg1, r1.2.2 ++ r2.2)
    else
      (r2.1, arg1, r1.2.2 ++ r2.2 ++ flash_area_close arg1.flash.flash_area)

/-- Shallow embedding of delta_mem_write (src/app/src/main.c, lines 64-74):
delegate to flash_img_buffered_write on the image writer context and map a
nonzero result to -EINVAL. -/
def delta_mem_write (env : FlashEnv) (arg_p : delta_memory_struct_t)
    (size : Nat) (flush : Bool) : Int × delta_memory_struct_t × List FlashOp :=
  let r := flash_img_buffered_write env arg_p.flash.img_ctx size flush
  let arg1 : delta_memory_struct_t :=
    { arg_p with flash := { arg_p.flash with img_ctx := r.2.1 } }
  if r.1 ≠ 0 then
    (-EINVAL, arg1, r.2.2)
  else
    (r.1, arg1, r.2.2)

/-- Shallow embedding of delta_mem_erase (src/app/src/main.c, lines 84-101):
open the flash area of the currently selected slot (returning -ENODEV on
failure), erase (returning -EINVAL on failure, and on that path the C code
returns without calling flash_area_close), close, and return the result. -/
def delta_mem_erase (env : FlashEnv) (arg_p : delta_memory_struct_t)
    (offset size : Nat) : Int × delta_memory_struct_t × List FlashOp :=
  let r1 := flash_area_open env arg_p.flash.slot
  if r1.1 ≠ 0 then
    (-ENODEV, arg_p, r1.2.2)
  else
    let arg1 : delta_memory_struct_t :=
      { arg_p with flash := { arg_p.flash with flash_area := r1.2.1 } }
    let r2 := flash_area_erase env arg1.flash.flash_area offset size
    if r2.1 ≠ 0 then
      (-EINVAL, arg1, r1.2.2 ++ r2.2)
    else
      (r2.1, arg1, r1.2.2 ++ r2.2 ++ flash_area_close arg1.flash.flash_area)

/-- Shallow embedding of delta_mem_seek (src/app/src/main.c, lines 111-116):
set both cursor offsets and return 0. It takes no environment and emits no
flash trace, mirroring that the C function performs no I/O. -/
def delta_mem_seek (arg_p : delta_memory_struct_t)
    (source_offset patch_offset : Nat) : Int × delta_memory_struct_t :=
  (0, { arg_p with offset := { source := source_offset, patch := patch_offset } })

/-- Number of successful region opens recorded in a trace. -/
def openedCount (t : List FlashOp) : Nat :=
  t.countP fun op => match op with | FlashOp.opened _ => true | _ => false

/-- Number of region closes recorded in a trace. -/
def closedCount (t : List FlashOp) : Nat :=
  t.countP fun op => match op with | FlashOp.closed _ => true | _ => false

/-- The slots successfully opened, in trace order. -/
def openedSlots (t : List FlashOp) : List Slot :=
  t.filterMap fun op => match op with | FlashOp.opened s => some s | _ => none

/-- The slots on which a hardware erase was issued, in trace order. -/
def erasedSlots (t : List FlashOp) : List Slot :=
  t.filterMap fun op => match op with | FlashOp.didErase s _ _ => some s | _ => none

/-- The hardware reads issued, in trace order, as (slot, offset, size). -/
def readOps (t : List FlashOp) : List (Slot × Nat × Nat) :=
  t.filterMap fun op => match op with
    | FlashOp.didRead s o z => some (s, o, z)
    | _ => none

/-- Bootloader upgrade request modes (Zephyr mcuboot boundary). -/
inductive BootMode where
  | BOOT_UPGRADE_TEST
  | BOOT_UPGRADE_PERMANENT
  deriving DecidableEq, Repr

/-- Reboot kinds (Zephyr sys_reboot boundary). -/
inductive RebootKind where
  | SYS_REBOOT_WARM
  | SYS_REBOOT_COLD
  deriving DecidableEq, Repr

/-- One observable orchestrator-level call into an external collaborator. -/
inductive AppEvent where
  | flashImgInitCalled
  | patchInitCalled
  | seekCalled (source_offset patch_offset : Nat)
  | patchCalled
  | bootRequest (mode : BootMode)
  | reboot (kind : RebootKind)
  deriving DecidableEq, Repr

/-- Oracle for the orchestrator-level external calls: result codes of
flash_img_init, delta_apply_patch_init, the backend patch entry point, and
boot_request_upgrade. -/
structure AppEnv where
  img_init_res : Int
  patch_init_res : Int
  patch_res : Int
  boot_res : Int

/-- The delta API aggregate: the memory structure plus a flag recording
whether delta_apply_patch_init has bound the four primitive callbacks. -/
structure delta_api_t where
  memory : delta_memory_struct_t
  callbacks_bound : Bool
  deriving DecidableEq, Repr

/-- Zephyr flash_img_init, modelled at the external interface boundary:
on success the image writer context is reinitialized (to 0), on failure the
oracle result is returned and the context is left as it was. -/
def flash_img_init (env : AppEnv) (ctx : Nat) : Int × Nat :=
  if env.img_init_res = 0 then (0, 0) else (env.img_init_res, ctx)

/-- Modelled from the spec: delta_apply_patch_init is delta-library code not
under src/; per the spec it registers the four primitives (read, write,
seek, erase) with the backend and reports success or an InitError. On
success the callback table of the API structure is bound. -/
def delta_apply_patch_init (env : AppEnv) (api : delta_api_t) : Int × delta_api_t :=
  if env.patch_init_res = 0 then
    (0, { api with callbacks_bound := true })
  else
    (env.patch_init_res, api)

/-- Shallow embedding of delta_apply_init (src/app/src/main.c, lines
151-181): flash_img_init on the destination writer, then callback
registration, then seek(0,0) through the registered seek callback (which is
delta_mem_seek); each step returns early on a nonzero result. The trace
records which external steps were invoked. -/
def delta_apply_init (env : AppEnv) (delta_apply : delta_api_t) :
    Int × delta_api_t × List AppEvent :=
  let r1 := flash_img_init env delta_apply.memory.flash.img_ctx
  let d1 : delta_api_t :=
    { delta_apply with memory :=
        { delta_apply.memory with flash :=
            { delta_apply.memory.flash with img_ctx := r1.2 } } }
  if r1.1 ≠ 0 then
    (r1.1, d1, [AppEvent.flashImgInitCalled])
  else
    let r2 := delta_apply_patch_init env d1
    if r2.1 ≠ 0 then
      (r2.1, r2.2, [AppEvent.flashImgInitCalled, AppEvent.patchInitCalled])
    else
      let r3 := delta_mem_seek r2.2.memory 0 0
      let d3 : delta_api_t := { r2.2 with memory := r3.2 }
      if r3.1 ≠ 0 then
        (r3.1, d3,
          [AppEvent.flashImgInitCalled, AppEvent.patchInitCalled, AppEvent.seekCalled 0 0])
      else
        (r3.1, d3,
          [AppEvent.flashImgInitCalled, AppEvent.patchInitCalled, AppEvent.seekCalled 0 0])

/-- Shallow embedding of delta_apply_algo (src/app/src/main.c, lines
125-143): invoke the backend patch entry point; on a nonzero result return
it; otherwise call boot_request_upgrade(BOOT_UPGRADE_PERMANENT) and return
its result. -/
def delta_apply_algo (env : AppEnv) : Int × List AppEvent :=
  let ret := env.patch_res
  if ret ≠ 0 then
    (ret, [AppEvent.patchCalled])
  else
    let ret2 := env.boot_res
    if ret2 ≠ 0 then
      (ret2, [AppEvent.patchCalled, AppEvent.bootRequest BootMode.BOOT_UPGRADE_PERMANENT])
    else
      (ret2, [AppEvent.patchCalled, AppEvent.bootRequest BootMode.BOOT_UPGRADE_PERMANENT])

/-- Shallow embedding of main (src/app/src/main.c, lines 183-212): run
delta_apply_init, abort with its result on failure; run delta_apply_algo,
abort with its result on failure; otherwise trigger the cold reboot. -/
def main (env : AppEnv) (delta_apply : delta_api_t) : Int × List AppEvent :=
  let r1 := delta_apply_init env delta_apply
  if r1.1 ≠ 0 then
    (r1.1, r1.2.2)
  else
    let r2 := delta_apply_algo env
    if r2.1 ≠ 0 then
      (r2.1, r1.2.2 ++ r2.2)
    else
      (r2.1, r1.2.2 ++ r2.2 ++ [AppEvent.reboot RebootKind.SYS_REBOOT_COLD])

/-- The upgrade-request modes recorded in an orchestrator trace. -/
def bootRequests (t : List AppEvent) : List BootMode :=
  t.filterMap fun e => match e with | AppEvent.bootRequest m => some m | _ => none

/-- Number of reboot calls recorded in an orchestrator trace. -/
def rebootCount (t : List AppEvent) : Nat :=
  t.countP fun e => match e with | AppEvent.reboot _ => true | _ => false

/-- A concrete memory structure: slot SLOT_0 selected, no open handle,
fresh writer context, both cursors at zero. -/
def st0 : delta_memory_struct_t :=
  { flash := { slot := Slot.SLOT_0, flash_area := none, img_ctx := 0 }
    offset := { source := 0, patch := 0 } }

/-- A concrete flash oracle on which every hardware call succeeds. -/
def envOk : FlashEnv :=
  { open_res := fun _ => 0
    read_res := fun _ _ _ => 0
    erase_res := fun _ _ _ => 0
    img_write_res := fun _ _ _ => 0
    img_write_next := fun ctx size _ => ctx + size }

/-- A concrete flash oracle on which opening succeeds but the hardware read
and erase calls fail with -5 (-EIO). -/
def envReadFault : FlashEnv :=
  { open_res := fun _ => 0
    read_res := fun _ _ _ => -5
    erase_res := fun _ _ _ => -5
    img_write_res := fun _ _ _ => 0
    img_write_next := fun ctx size _ => ctx + size }

/-- A concrete orchestrator oracle on which every step succeeds. -/
def appEnvOk : AppEnv :=
  { img_init_res := 0, patch_init_res := 0, patch_res := 0, boot_res := 0 }

/-- A concrete orchestrator oracle on which the backend patch entry point
fails with -7 while everything else would succeed. -/
def appEnvPatchFail : AppEnv :=
  { img_init_res := 0, patch_init_res := 0, patch_res := -7, boot_res := 0 }

/-- A concrete delta API value before initialization. -/
def api0 : delta_api_t :=
  { memory := st0, callbacks_bound := false }

/-- Claim C8: for every pair of offset arguments, delta_mem_seek sets the
source cursor to the first argument and the patch cursor to the second,
performs no I/O (it is pure: no flash environment, no trace), and returns
zero unconditionally. -/
theorem delta_mem_seek_sets_both_cursors (st : delta_memory_struct_t) (s p : Nat) :
    delta_mem_seek st s p = (0, { st with offset := { source := s, patch := p } }) := rfl

/-- Claim C9: a call of delta_mem_read leaves both cursor offsets unchanged
on every path, including the open-failure and read-failure paths; reading
never auto-advances a cursor. -/
theorem delta_mem_read_preserves_cursors (env : FlashEnv)
    (st : delta_memory_struct_t) (size : Nat) :
    ((delta_mem_read env st size).2.1).offset = st.offset := by
  by_cases h1 : env.open_res st.flash.slot = 0 <;>
    by_cases h2 : env.read_res st.flash.slot
      (if st.flash.slot = Slot.SLOT_0 then st.offset.source else st.offset.patch)
      size = 0 <;>
    simp [delta_mem_read, flash_area_open, flash_area_read, flash_area_close, h1, h2]

/-- Claim C10: a call of delta_mem_write opens and closes no flash region
handle and leaves the source cursor, the patch cursor, the slot selector
and the region handle unchanged; it mutates only the buffered image-writer
context. -/
theorem delta_mem_write_frame (env : FlashEnv) (st : delta_memory_struct_t)
    (size : Nat) (flush : Bool) :
    openedCount (delta_mem_write env st size flush).2.2 = 0 ∧
    closedCount (delta_mem_write env st size flush).2.2 = 0 ∧
    ((delta_mem_write env st size flush).2.1).offset = st.offset ∧
    ((delta_mem_write env st size flush).2.1).flash.slot = st.flash.slot ∧
    ((delta_mem_write env st size flush).2.1).flash.flash_area = st.flash.flash_area := by
  by_cases h : env.img_write_res st.flash.img_ctx size flush = 0 <;>
    simp [delta_mem_write, flash_img_buffered_write, openedCount, closedCount, h]

/-- Claim C7: delta_mem_read returns -ENODEV exactly when opening the region
fails, returns -EINVAL exactly when the region opened but the hardware read
reported a nonzero error, and returns 0 otherwise; the three codes are
pairwise distinct. -/
theorem delta_mem_read_error_codes (env : FlashEnv)
    (st : delta_memory_struct_t) (size : Nat) :
    (delta_mem_read env st size).1 =
      (if env.open_res st.flash.slot ≠ 0 then -ENODEV
       else if env.read_res st.flash.slot
           (if st.flash.slot = Slot.SLOT_0 then st.offset.source else st.offset.patch)
           size ≠ 0 then -EINVAL
       else 0) ∧
    -ENODEV ≠ -EINVAL ∧ -ENODEV ≠ (0 : Int) ∧ -EINVAL ≠ (0 : Int) := by
  refine ⟨?_, by decide, by decide, by decide⟩
  by_cases h1 : env.open_res st.flash.slot = 0 <;>
    by_cases h2 : env.read_res st.flash.slot
      (if st.flash.slot = Slot.SLOT_0 then st.offset.source else st.offset.patch)
      size = 0 <;>
    simp [delta_mem_read, flash_area_open, flash_area_read, flash_area_close, h1, h2]

/-- Claim C1: at a concrete input on which the region opens successfully and
the hardware read (resp. erase) then fails, delta_mem_read and
delta_mem_erase return -EINVAL with the opened handle never closed: one
successful open and zero closes on that exit path, contradicting the
spec's guarantee that the handle is closed on every exit path. -/
theorem read_and_erase_fault_leak_open_handle :
    (delta_mem_read envReadFault st0 16).1 = -EINVAL ∧
    openedCount (delta_mem_read envReadFault st0 16).2.2 = 1 ∧
    closedCount (delta_mem_read envReadFault st0 16).2.2 = 0 ∧
    (delta_mem_erase envReadFault st0 0 16).1 = -EINVAL ∧
    openedCount (delta_mem_erase envReadFault st0 0 16).2.2 = 1 ∧
    closedCount (delta_mem_erase envReadFault st0 0 16).2.2 = 0 := by decide

/-- Counterexample to claim C2: with the SOURCE slot (SLOT_0) currently
selected and every hardware call succeeding, delta_mem_erase opens and
erases SLOT_0, which is not the DESTINATION region. -/
theorem erase_opens_selected_slot_not_destination :
    openedSlots (delta_mem_erase envOk st0 0 4096).2.2 = [Slot.SLOT_0] ∧
    erasedSlots (delta_mem_erase envOk st0 0 4096).2.2 = [Slot.SLOT_0] ∧
    Slot.SLOT_0 ≠ DESTINATION_SLOT := by decide

/-- Claim C2 amended: the region that delta_mem_erase opens and erases is
always the region currently selected by the slot field of the memory
structure (the same selector the read primitive uses), not unconditionally
the DESTINATION region: the opened and erased slots of any erase call are
exactly the selected slot (when the open succeeds, else none). -/
theorem delta_mem_erase_targets_selected_slot (env : FlashEnv)
    (st : delta_memory_struct_t) (offset size : Nat) :
    openedSlots (delta_mem_erase env st offset size).2.2 =
      (if env.open_res st.flash.slot = 0 then [st.flash.slot] else []) ∧
    erasedSlots (delta_mem_erase env st offset size).2.2 =
      (if env.open_res st.flash.slot = 0 then [st.flash.slot] else []) := by
  by_cases h1 : env.open_res st.flash.slot = 0 <;>
    by_cases h2 : env.erase_res st.flash.slot offset size = 0 <;>
    simp [delta_mem_erase, flash_area_open, flash_area_erase, flash_area_close,
      openedSlots, erasedSlots, h1, h2]

/-- Claim C5: after delta_mem_seek st s p, a delta_mem_read whose selected
slot is SLOT_0 (SOURCE) issues its hardware read at offset s, and a read
whose selected slot is any other (PATCH) issues it at offset p: the reads
issued are fully characterized and the two cursors never cross-contaminate. -/
theorem seek_then_read_uses_matching_cursor (env : FlashEnv)
    (st : delta_memory_struct_t) (s p size : Nat) (sel : Slot) :
    readOps (delta_mem_read env
      { (delta_mem_seek st s p).2 with flash :=
          { ((delta_mem_seek st s p).2).flash with slot := sel } } size).2.2 =
      (if env.open_res sel = 0 then
        [(sel, (if sel = Slot.SLOT_0 then s else p), size)]
       else []) := by
  by_cases h1 : env.open_res sel = 0 <;>
    by_cases hsel : sel = Slot.SLOT_0 <;>
    by_cases h2 : env.read_res sel (if sel = Slot.SLOT_0 then s else p) size = 0 <;>
    simp [delta_mem_read, delta_mem_seek, flash_area_open, flash_area_read,
      flash_area_close, readOps, h1, hsel, h2] <;>
    simp_all

/-- Claim C6: delta_apply_init runs destination-writer init, then callback
registration, then seek(0,0), in that order, and a nonzero result of any
step stops the sequence: the event trace, the final cursor pair and the
returned status are each fully characterized by which step failed first;
in particular when flash_img_init fails the registration step is absent
from the trace and the cursors are unchanged. -/
theorem delta_apply_init_sequencing (env : AppEnv) (api : delta_api_t) :
    (delta_apply_init env api).2.2 =
      (if env.img_init_res ≠ 0 then [AppEvent.flashImgInitCalled]
       else if env.patch_init_res ≠ 0 then
         [AppEvent.flashImgInitCalled, AppEvent.patchInitCalled]
       else
         [AppEvent.flashImgInitCalled, AppEvent.patchInitCalled,
           AppEvent.seekCalled 0 0]) ∧
    ((delta_apply_init env api).2.1).memory.offset =
      (if env.img_init_res ≠ 0 then api.memory.offset
       else if env.patch_init_res ≠ 0 then api.memory.offset
       else { source := 0, patch := 0 }) ∧
    (delta_apply_init env api).1 =
      (if env.img_init_res ≠ 0 then env.img_init_res
       else if env.patch_init_res ≠ 0 then env.patch_init_res
       else 0) := by
  by_cases h1 : env.img_init_res = 0 <;> by_cases h2 : env.patch_init_res = 0 <;>
    simp [delta_apply_init, flash_img_init, delta_apply_patch_init, delta_mem_seek, h1, h2]

/-- Claim C3: in every run of main in which initialization succeeds and the
backend patch entry point returns zero, boot_request_upgrade is invoked
exactly once and with BOOT_UPGRADE_PERMANENT, and the cold reboot is
triggered exactly when that upgrade request also returns zero. -/
theorem main_patch_success_requests_permanent_upgrade_once (env : AppEnv)
    (api : delta_api_t) (h1 : env.img_init_res = 0) (h2 : env.patch_init_res = 0)
    (h3 : env.patch_res = 0) :
    bootRequests (main env api).2 = [BootMode.BOOT_UPGRADE_PERMANENT] ∧
    (rebootCount (main env api).2 = 1 ↔ env.boot_res = 0) := by
  by_cases hb : env.boot_res = 0 <;>
    simp [main, delta_apply_init, delta_apply_algo, flash_img_init,
      delta_apply_patch_init, delta_mem_seek, bootRequests, rebootCount,
      h1, h2, h3, hb]

/-- Witness for claim C3 at the all-zero oracle. -/
theorem main_patch_success_requests_permanent_upgrade_once_witness :
    bootRequests (main appEnvOk api0).2 = [BootMode.BOOT_UPGRADE_PERMANENT] ∧
    (rebootCount (main appEnvOk api0).2 = 1 ↔ appEnvOk.boot_res = 0) :=
  main_patch_success_requests_permanent_upgrade_once appEnvOk api0 rfl rfl rfl

/-- Claim C4: in every run of main in which initialization succeeds and the
backend patch entry point returns a nonzero error, boot_request_upgrade is
never called, the reboot is never triggered, and main returns that nonzero
status. -/
theorem main_patch_failure_aborts_without_upgrade (env : AppEnv)
    (api : delta_api_t) (h1 : env.img_init_res = 0) (h2 : env.patch_init_res = 0)
    (h3 : env.patch_res ≠ 0) :
    bootRequests (main env api).2 = [] ∧
    rebootCount (main env api).2 = 0 ∧
    (main env api).1 = env.patch_res := by
  simp [main, delta_apply_init, delta_apply_algo, flash_img_init,
    delta_apply_patch_init, delta_mem_seek, bootRequests, rebootCount, h1, h2, h3]

/-- Witness for claim C4 at the oracle whose patch step fails with -7. -/
theorem main_patch_failure_aborts_without_upgrade_witness :
    bootRequests (main appEnvPatchFail api0).2 = [] ∧
    rebootCount (main appEnvPatchFail api0).2 = 0 ∧
    (main appEnvPatchFail api0).1 = appEnvPatchFail.patch_res :=
  main_patch_failure_aborts_without_upgrade appEnvPatchFail api0 rfl rfl (by decide)

end Dfota
